import Mathlib

/-!
Verification of the curved-scrollbar component.

The source is a React Native component whose core is three pieces of logic:

* `calculateRailPath` — a pure geometry computation turning the measured
  container dimensions (and the fixed scrollbar configuration) into six key
  points, five per-segment lengths, a total length, and an SVG-style path
  description made of move/line/arc commands;
* `animatedMaskProps` — the mapping from (visibility inputs, geometry,
  scroll progress) to the stroke-dash indicator (opacity, dash pattern,
  dash offset);
* `handleScroll` — normalisation of raw scroll telemetry into a clamped
  progress value in `[0,1]`.

JavaScript numbers are modelled as real numbers (`ℝ`); the SVG path string
is modelled structurally as a list of path commands carrying the same data
the string interpolation writes out.
-/

namespace CurvedScrollBar

open Classical

/-- A 2D point with real coordinates, as produced by the path calculation. -/
structure Pt where
  x : ℝ
  y : ℝ

instance : Inhabited Pt := ⟨⟨0, 0⟩⟩

/-- The scrollbar configuration record (`SCROLLBAR_CONFIG` in the source);
only the fields the core geometry and indicator mapping consume. -/
structure ScrollbarConfig where
  cornerRadius : ℝ
  edgePadding : ℝ
  horizontalPosition : ℝ
  visibleLength : ℝ

/-- The fixed configuration values from the source component. -/
def SCROLLBAR_CONFIG : ScrollbarConfig :=
  { cornerRadius := 12
    edgePadding := 10
    horizontalPosition := 1.1
    visibleLength := 70 }

/-- One command of the SVG path description string: `M x y`, `L x y`, or
`A rx ry xAxisRotation largeArcFlag sweepFlag x y`. -/
inductive PathCmd where
  | moveTo (p : Pt)
  | lineTo (p : Pt)
  | arcTo (rx ry xAxisRotation : ℝ) (largeArcFlag sweepFlag : ℕ) (p : Pt)

/-- The record returned by `calculateRailPath` in the source: the path
description, the key points, per-segment lengths and the total length. -/
structure RailGeometry where
  railPath : List PathCmd
  points : List Pt
  segmentLengths : List ℝ
  totalLength : ℝ

/-- Length assigned to segment `i` between consecutive points `p` and `q`:
the arc formula at indices 1 and 3, the Euclidean distance otherwise
(the body of the `for` loop over `i` in the source). -/
noncomputable def segLen (cornerRadius : ℝ) (i : ℕ) (p q : Pt) : ℝ :=
  if i = 1 ∨ i = 3 then
    Real.pi * cornerRadius / 2 + 2
  else
    Real.sqrt ((q.x - p.x) * (q.x - p.x) + (q.y - p.y) * (q.y - p.y))

/-- The `segmentLengths` array: one `segLen` per consecutive point pair,
indexed from `i`. -/
noncomputable def segLens (cornerRadius : ℝ) : ℕ → List Pt → List ℝ
  | i, p :: q :: rest => segLen cornerRadius i p q :: segLens cornerRadius (i + 1) (q :: rest)
  | _, _ => []

/-- The path command emitted for point index `i ≥ 1`: an arc command with
sweep flag 1 at indices 2 and 4, a line command otherwise. -/
def cmdAt (cornerRadius : ℝ) (i : ℕ) (p : Pt) : PathCmd :=
  if i = 2 ∨ i = 4 then PathCmd.arcTo cornerRadius cornerRadius 0 0 1 p
  else PathCmd.lineTo p

/-- The loop building the tail of the path description, starting at index `i`. -/
def cmds (cornerRadius : ℝ) : ℕ → List Pt → List PathCmd
  | i, p :: rest => cmdAt cornerRadius i p :: cmds cornerRadius (i + 1) rest
  | _, [] => []

/-- The full path description: move to the first point, then one command per
subsequent point (`railPath` string building in the source). -/
def railPathCmds (cornerRadius : ℝ) : List Pt → List PathCmd
  | [] => []
  | p :: rest => PathCmd.moveTo p :: cmds cornerRadius 1 rest

/-- `calculateRailPath` from the source: returns the empty geometry when
either dimension is 0, otherwise the six key points, the five segment
lengths, their running total, and the path description. -/
noncomputable def calculateRailPath (cfg : ScrollbarConfig) (width height : ℝ) :
    RailGeometry :=
  if width = 0 ∨ height = 0 then
    { railPath := [], points := [], segmentLengths := [], totalLength := 0 }
  else
    let points : List Pt :=
      [ { x := width / cfg.horizontalPosition
          y := cfg.edgePadding + cfg.cornerRadius },
        { x := width - cfg.edgePadding - cfg.cornerRadius
          y := cfg.edgePadding + cfg.cornerRadius },
        { x := width - cfg.edgePadding
          y := cfg.edgePadding + cfg.cornerRadius + cfg.cornerRadius },
        { x := width - cfg.edgePadding
          y := height - cfg.edgePadding - cfg.cornerRadius - cfg.cornerRadius },
        { x := width - cfg.edgePadding - cfg.cornerRadius
          y := height - cfg.edgePadding - cfg.cornerRadius },
        { x := width / cfg.horizontalPosition
          y := height - cfg.edgePadding - cfg.cornerRadius } ]
    let segmentLengths : List ℝ := segLens cfg.cornerRadius 0 points
    let totalLength : ℝ := segmentLengths.foldl (fun a b => a + b) 0
    { railPath := railPathCmds cfg.cornerRadius points
      points := points
      segmentLengths := segmentLengths
      totalLength := totalLength }

/-- The indicator visual returned by `animatedMaskProps`: opacity, the dash
pattern (visible length and gap, the two numbers of `strokeDasharray`), and
the dash offset. -/
structure IndicatorVisual where
  opacity : ℝ
  dashVisible : ℝ
  dashGap : ℝ
  dashOffset : ℝ

/-- The hidden-state return value: opacity 0, dash pattern `0 1000`, offset 0. -/
def hiddenVisual : IndicatorVisual :=
  { opacity := 0, dashVisible := 0, dashGap := 1000, dashOffset := 0 }

/-- `animatedMaskProps` from the source: hides the indicator when the rail is
disabled, the content fits in the viewport, the path is empty, or the total
length is 0; otherwise reveals a `visibleLength`-long dash centred on the
current position along the path. -/
noncomputable def animatedMaskProps (cfg : ScrollbarConfig) (showRail : Bool)
    (contentHeight scrollViewHeight : ℝ) (geom : RailGeometry) (progress : ℝ) :
    IndicatorVisual :=
  if showRail = false ∨ contentHeight ≤ scrollViewHeight ∨ geom.railPath = [] then
    hiddenVisual
  else if geom.totalLength = 0 then
    hiddenVisual
  else
    let currentPosition := progress * geom.totalLength
    { opacity := 1
      dashVisible := cfg.visibleLength
      dashGap := geom.totalLength
      dashOffset := -currentPosition + cfg.visibleLength / 2 }

/-- The progress value `handleScroll` feeds to the spring follower: the raw
offset ratio when there is scrollable range, 0 otherwise, clamped to `[0,1]`
by `Math.max(0, Math.min(1, progress))`. -/
noncomputable def handleScrollProgress (contentOffsetY contentHeight layoutHeight : ℝ) : ℝ :=
  let maxScrollDistance := contentHeight - layoutHeight
  let progress := if maxScrollDistance > 0 then contentOffsetY / maxScrollDistance else 0
  max 0 (min 1 progress)

/-- Euclidean distance between two points, as the spec describes the length of
straight segments. -/
noncomputable def eucDist (p q : Pt) : ℝ :=
  Real.sqrt ((q.x - p.x) ^ 2 + (q.y - p.y) ^ 2)

/-- Unfolding lemma: the points of a measured viewport, exactly as listed in
the source. -/
theorem railPath_points_eq (cfg : ScrollbarConfig) (w h : ℝ) (hw : w ≠ 0) (hh : h ≠ 0) :
    (calculateRailPath cfg w h).points =
      [ ⟨w / cfg.horizontalPosition, cfg.edgePadding + cfg.cornerRadius⟩,
        ⟨w - cfg.edgePadding - cfg.cornerRadius, cfg.edgePadding + cfg.cornerRadius⟩,
        ⟨w - cfg.edgePadding, cfg.edgePadding + cfg.cornerRadius + cfg.cornerRadius⟩,
        ⟨w - cfg.edgePadding, h - cfg.edgePadding - cfg.cornerRadius - cfg.cornerRadius⟩,
        ⟨w - cfg.edgePadding - cfg.cornerRadius, h - cfg.edgePadding - cfg.cornerRadius⟩,
        ⟨w / cfg.horizontalPosition, h - cfg.edgePadding - cfg.cornerRadius⟩ ] := by
  simp [calculateRailPath, hw, hh]

/-- Unfolding lemma: the segment lengths of a measured viewport; arcs at
indices 1 and 3, Euclidean distances elsewhere. -/
theorem railPath_segmentLengths_eq (cfg : ScrollbarConfig) (w h : ℝ)
    (hw : w ≠ 0) (hh : h ≠ 0) :
    (calculateRailPath cfg w h).segmentLengths =
      [ eucDist ⟨w / cfg.horizontalPosition, cfg.edgePadding + cfg.cornerRadius⟩
          ⟨w - cfg.edgePadding - cfg.cornerRadius, cfg.edgePadding + cfg.cornerRadius⟩,
        Real.pi * cfg.cornerRadius / 2 + 2,
        eucDist ⟨w - cfg.edgePadding, cfg.edgePadding + cfg.cornerRadius + cfg.cornerRadius⟩
          ⟨w - cfg.edgePadding, h - cfg.edgePadding - cfg.cornerRadius - cfg.cornerRadius⟩,
        Real.pi * cfg.cornerRadius / 2 + 2,
        eucDist ⟨w - cfg.edgePadding - cfg.cornerRadius, h - cfg.edgePadding - cfg.cornerRadius⟩
          ⟨w / cfg.horizontalPosition, h - cfg.edgePadding - cfg.cornerRadius⟩ ] := by
  simp [calculateRailPath, hw, hh, segLens, segLen, eucDist, pow_two]

/-- Unfolding lemma: the path description of a measured viewport: move, line,
arc, line, arc, line. -/
theorem railPath_cmds_eq (cfg : ScrollbarConfig) (w h : ℝ) (hw : w ≠ 0) (hh : h ≠ 0) :
    (calculateRailPath cfg w h).railPath =
      [ PathCmd.moveTo ⟨w / cfg.horizontalPosition, cfg.edgePadding + cfg.cornerRadius⟩,
        PathCmd.lineTo ⟨w - cfg.edgePadding - cfg.cornerRadius, cfg.edgePadding + cfg.cornerRadius⟩,
        PathCmd.arcTo cfg.cornerRadius cfg.cornerRadius 0 0 1
          ⟨w - cfg.edgePadding, cfg.edgePadding + cfg.cornerRadius + cfg.cornerRadius⟩,
        PathCmd.lineTo ⟨w - cfg.edgePadding, h - cfg.edgePadding - cfg.cornerRadius - cfg.cornerRadius⟩,
        PathCmd.arcTo cfg.cornerRadius cfg.cornerRadius 0 0 1
          ⟨w - cfg.edgePadding - cfg.cornerRadius, h - cfg.edgePadding - cfg.cornerRadius⟩,
        PathCmd.lineTo ⟨w / cfg.horizontalPosition, h - cfg.edgePadding - cfg.cornerRadius⟩ ] := by
  simp [calculateRailPath, hw, hh, railPathCmds, cmds, cmdAt]

/-- C1: for a measured viewport the geometry returns exactly six points, in
traversal order, at the coordinates given by the spec formulas. -/
theorem claim_C1_points (cfg : ScrollbarConfig) (w h : ℝ) (hw : 0 < w) (hh : 0 < h) :
    (calculateRailPath cfg w h).points =
      [ ⟨w / cfg.horizontalPosition, cfg.edgePadding + cfg.cornerRadius⟩,
        ⟨w - cfg.edgePadding - cfg.cornerRadius, cfg.edgePadding + cfg.cornerRadius⟩,
        ⟨w - cfg.edgePadding, cfg.edgePadding + 2 * cfg.cornerRadius⟩,
        ⟨w - cfg.edgePadding, h - cfg.edgePadding - 2 * cfg.cornerRadius⟩,
        ⟨w - cfg.edgePadding - cfg.cornerRadius, h - cfg.edgePadding - cfg.cornerRadius⟩,
        ⟨w / cfg.horizontalPosition, h - cfg.edgePadding - cfg.cornerRadius⟩ ] := by
  rw [railPath_points_eq cfg w h hw.ne' hh.ne']
  norm_num
  constructor <;> ring

/-- Witness for C1 at the concrete viewport 300 × 600. -/
theorem claim_C1_points_witness :
    (0 : ℝ) < 300 ∧ (0 : ℝ) < 600 ∧
      (calculateRailPath SCROLLBAR_CONFIG 300 600).points =
        [ ⟨300 / SCROLLBAR_CONFIG.horizontalPosition,
            SCROLLBAR_CONFIG.edgePadding + SCROLLBAR_CONFIG.cornerRadius⟩,
          ⟨300 - SCROLLBAR_CONFIG.edgePadding - SCROLLBAR_CONFIG.cornerRadius,
            SCROLLBAR_CONFIG.edgePadding + SCROLLBAR_CONFIG.cornerRadius⟩,
          ⟨300 - SCROLLBAR_CONFIG.edgePadding,
            SCROLLBAR_CONFIG.edgePadding + 2 * SCROLLBAR_CONFIG.cornerRadius⟩,
          ⟨300 - SCROLLBAR_CONFIG.edgePadding,
            600 - SCROLLBAR_CONFIG.edgePadding - 2 * SCROLLBAR_CONFIG.cornerRadius⟩,
          ⟨300 - SCROLLBAR_CONFIG.edgePadding - SCROLLBAR_CONFIG.cornerRadius,
            600 - SCROLLBAR_CONFIG.edgePadding - SCROLLBAR_CONFIG.cornerRadius⟩,
          ⟨300 / SCROLLBAR_CONFIG.horizontalPosition,
            600 - SCROLLBAR_CONFIG.edgePadding - SCROLLBAR_CONFIG.cornerRadius⟩ ] :=
  ⟨by norm_num, by norm_num,
    claim_C1_points SCROLLBAR_CONFIG 300 600 (by norm_num) (by norm_num)⟩

/-- C2: for a measured viewport the five segment lengths are the arc formula
pi times cornerRadius over 2 plus 2 at indices 1 and 3, and the Euclidean
distance between the two endpoints at indices 0, 2 and 4. -/
theorem claim_C2_segment_lengths (cfg : ScrollbarConfig) (w h : ℝ)
    (hw : 0 < w) (hh : 0 < h) :
    (calculateRailPath cfg w h).segmentLengths =
      [ eucDist ((calculateRailPath cfg w h).points.getD 0 default)
          ((calculateRailPath cfg w h).points.getD 1 default),
        Real.pi * cfg.cornerRadius / 2 + 2,
        eucDist ((calculateRailPath cfg w h).points.getD 2 default)
          ((calculateRailPath cfg w h).points.getD 3 default),
        Real.pi * cfg.cornerRadius / 2 + 2,
        eucDist ((calculateRailPath cfg w h).points.getD 4 default)
          ((calculateRailPath cfg w h).points.getD 5 default) ] := by
  rw [railPath_segmentLengths_eq cfg w h hw.ne' hh.ne',
    railPath_points_eq cfg w h hw.ne' hh.ne']
  simp

/-- Witness for C2 at the concrete viewport 300 × 600. -/
theorem claim_C2_segment_lengths_witness :
    (0 : ℝ) < 300 ∧ (0 : ℝ) < 600 ∧
      (calculateRailPath SCROLLBAR_CONFIG 300 600).segmentLengths =
        [ eucDist ((calculateRailPath SCROLLBAR_CONFIG 300 600).points.getD 0 default)
            ((calculateRailPath SCROLLBAR_CONFIG 300 600).points.getD 1 default),
          Real.pi * SCROLLBAR_CONFIG.cornerRadius / 2 + 2,
          eucDist ((calculateRailPath SCROLLBAR_CONFIG 300 600).points.getD 2 default)
            ((calculateRailPath SCROLLBAR_CONFIG 300 600).points.getD 3 default),
          Real.pi * SCROLLBAR_CONFIG.cornerRadius / 2 + 2,
          eucDist ((calculateRailPath SCROLLBAR_CONFIG 300 600).points.getD 4 default)
            ((calculateRailPath SCROLLBAR_CONFIG 300 600).points.getD 5 default) ] :=
  ⟨by norm_num, by norm_num,
    claim_C2_segment_lengths SCROLLBAR_CONFIG 300 600 (by norm_num) (by norm_num)⟩

/-- C8: for a measured viewport the path description is a move command to P0
followed by one command per subsequent point: arc commands with radius
cornerRadius and sweep flag 1 on the transitions into P2 and P4, line
commands everywhere else. -/
theorem claim_C8_path_description (cfg : ScrollbarConfig) (w h : ℝ)
    (hw : 0 < w) (hh : 0 < h) :
    (calculateRailPath cfg w h).railPath =
      [ PathCmd.moveTo ((calculateRailPath cfg w h).points.getD 0 default),
        PathCmd.lineTo ((calculateRailPath cfg w h).points.getD 1 default),
        PathCmd.arcTo cfg.cornerRadius cfg.cornerRadius 0 0 1
          ((calculateRailPath cfg w h).points.getD 2 default),
        PathCmd.lineTo ((calculateRailPath cfg w h).points.getD 3 default),
        PathCmd.arcTo cfg.cornerRadius cfg.cornerRadius 0 0 1
          ((calculateRailPath cfg w h).points.getD 4 default),
        PathCmd.lineTo ((calculateRailPath cfg w h).points.getD 5 default) ] := by
  rw [railPath_cmds_eq cfg w h hw.ne' hh.ne',
    railPath_points_eq cfg w h hw.ne' hh.ne']
  simp

/-- Witness for C8 at the concrete viewport 300 × 600. -/
theorem claim_C8_path_description_witness :
    (0 : ℝ) < 300 ∧ (0 : ℝ) < 600 ∧
      (calculateRailPath SCROLLBAR_CONFIG 300 600).railPath =
        [ PathCmd.moveTo ((calculateRailPath SCROLLBAR_CONFIG 300 600).points.getD 0 default),
          PathCmd.lineTo ((calculateRailPath SCROLLBAR_CONFIG 300 600).points.getD 1 default),
          PathCmd.arcTo SCROLLBAR_CONFIG.cornerRadius SCROLLBAR_CONFIG.cornerRadius 0 0 1
            ((calculateRailPath SCROLLBAR_CONFIG 300 600).points.getD 2 default),
          PathCmd.lineTo ((calculateRailPath SCROLLBAR_CONFIG 300 600).points.getD 3 default),
          PathCmd.arcTo SCROLLBAR_CONFIG.cornerRadius SCROLLBAR_CONFIG.cornerRadius 0 0 1
            ((calculateRailPath SCROLLBAR_CONFIG 300 600).points.getD 4 default),
          PathCmd.lineTo ((calculateRailPath SCROLLBAR_CONFIG 300 600).points.getD 5 default) ] :=
  ⟨by norm_num, by norm_num,
    claim_C8_path_description SCROLLBAR_CONFIG 300 600 (by norm_num) (by norm_num)⟩

/-- C6: when either viewport dimension is 0, `calculateRailPath` returns the
empty geometry: no points, no segment lengths, total length 0, empty path. -/
theorem claim_C6_empty_geometry (cfg : ScrollbarConfig) (w h : ℝ)
    (hz : w = 0 ∨ h = 0) :
    calculateRailPath cfg w h =
      { railPath := [], points := [], segmentLengths := [], totalLength := 0 } := by
  simp [calculateRailPath, hz]

/-- Witness for C6 at the concrete unmeasured viewport `(0, 500)`. -/
theorem claim_C6_empty_geometry_witness :
    ((0 : ℝ) = 0 ∨ (500 : ℝ) = 0) ∧
      calculateRailPath SCROLLBAR_CONFIG 0 500 =
        { railPath := [], points := [], segmentLengths := [], totalLength := 0 } :=
  ⟨Or.inl rfl, claim_C6_empty_geometry SCROLLBAR_CONFIG 0 500 (Or.inl rfl)⟩

/-- C3: whenever the rail is shown, the content overflows the viewport, the
path is non-empty and the total length is positive, the indicator has
opacity 1, dash pattern (visibleLength, totalLength), and dash offset
visibleLength / 2 minus progress times totalLength — a strictly decreasing
affine function of progress. -/
theorem claim_C3_visible_mapping (cfg : ScrollbarConfig) (ch vh : ℝ)
    (g : RailGeometry) (hscroll : vh < ch) (hpath : g.railPath ≠ [])
    (hlen : 0 < g.totalLength) :
    (∀ p : ℝ, animatedMaskProps cfg true ch vh g p =
      { opacity := 1
        dashVisible := cfg.visibleLength
        dashGap := g.totalLength
        dashOffset := cfg.visibleLength / 2 - p * g.totalLength }) ∧
    ∀ p q : ℝ, p < q →
      (animatedMaskProps cfg true ch vh g q).dashOffset <
        (animatedMaskProps cfg true ch vh g p).dashOffset := by
  have hmain : ∀ p : ℝ, animatedMaskProps cfg true ch vh g p =
      { opacity := 1
        dashVisible := cfg.visibleLength
        dashGap := g.totalLength
        dashOffset := cfg.visibleLength / 2 - p * g.totalLength } := by
    intro p
    rw [animatedMaskProps]
    rw [if_neg (by push_neg; exact ⟨by simp, hscroll, hpath⟩)]
    rw [if_neg hlen.ne']
    simp only [IndicatorVisual.mk.injEq, true_and, and_true, eq_self_iff_true]
    ring
  refine ⟨hmain, fun p q hpq => ?_⟩
  rw [hmain p, hmain q]
  have := mul_lt_mul_of_pos_right hpq hlen
  simp only []
  linarith

/-- Witness for C3 on a concrete non-degenerate geometry. -/
theorem claim_C3_visible_mapping_witness :
    (800 : ℝ) < 2000 ∧
      ∀ p : ℝ, animatedMaskProps SCROLLBAR_CONFIG true 2000 800
          { railPath := [PathCmd.moveTo ⟨0, 0⟩], points := [], segmentLengths := [],
            totalLength := 5 } p =
        { opacity := 1
          dashVisible := SCROLLBAR_CONFIG.visibleLength
          dashGap := (5 : ℝ)
          dashOffset := SCROLLBAR_CONFIG.visibleLength / 2 - p * 5 } :=
  ⟨by norm_num,
    (claim_C3_visible_mapping SCROLLBAR_CONFIG 2000 800
      { railPath := [PathCmd.moveTo ⟨0, 0⟩], points := [], segmentLengths := [],
        totalLength := 5 }
      (by norm_num) (by simp) (by norm_num)).1⟩

/-- C4: under any of the four hide conditions (rail disabled, content fits in
the viewport, empty path, zero total length) the indicator is the hidden
visual: opacity 0, dash pattern (0, 1000), offset 0 — for every progress. -/
theorem claim_C4_hidden_mapping (cfg : ScrollbarConfig) (showRail : Bool)
    (ch vh : ℝ) (g : RailGeometry) (p : ℝ)
    (h : showRail = false ∨ ch ≤ vh ∨ g.railPath = [] ∨ g.totalLength = 0) :
    animatedMaskProps cfg showRail ch vh g p =
      { opacity := 0, dashVisible := 0, dashGap := 1000, dashOffset := 0 } := by
  rcases h with h | h | h | h
  · simp [animatedMaskProps, h, hiddenVisual]
  · simp [animatedMaskProps, h, hiddenVisual]
  · simp [animatedMaskProps, h, hiddenVisual]
  · simp [animatedMaskProps, h, hiddenVisual]

/-- Witness for C4 with the rail disabled at a concrete state. -/
theorem claim_C4_hidden_mapping_witness :
    ((false = false ∨ (2000 : ℝ) ≤ 800 ∨
        (RailGeometry.mk [PathCmd.moveTo ⟨0, 0⟩] [] [] 5).railPath = [] ∨
        (RailGeometry.mk [PathCmd.moveTo ⟨0, 0⟩] [] [] 5).totalLength = 0) ∧
      animatedMaskProps SCROLLBAR_CONFIG false 2000 800
          (RailGeometry.mk [PathCmd.moveTo ⟨0, 0⟩] [] [] 5) (1 / 2) =
        { opacity := 0, dashVisible := 0, dashGap := 1000, dashOffset := 0 }) :=
  ⟨Or.inl rfl,
    claim_C4_hidden_mapping SCROLLBAR_CONFIG false 2000 800
      (RailGeometry.mk [PathCmd.moveTo ⟨0, 0⟩] [] [] 5) (1 / 2) (Or.inl rfl)⟩

/-- C7: the progress fed to the spring follower is always clamped to the unit
interval, and is 0 whenever the scrollable range is not positive. -/
theorem claim_C7_progress_clamped (off ch lh : ℝ) :
    0 ≤ handleScrollProgress off ch lh ∧ handleScrollProgress off ch lh ≤ 1 ∧
      (ch - lh ≤ 0 → handleScrollProgress off ch lh = 0) := by
  unfold handleScrollProgress
  refine ⟨le_max_left 0 _, max_le (by norm_num) ((min_le_left 1 _)), fun hr => ?_⟩
  have hng : ¬(ch - lh > 0) := not_lt.mpr hr
  simp only [hng, if_false]
  norm_num

/-- Witness for C7 at a negative overscroll offset on non-scrollable content. -/
theorem claim_C7_progress_clamped_witness :
    handleScrollProgress (-50) 400 400 = 0 ∧
      0 ≤ handleScrollProgress (-50) 400 400 ∧ handleScrollProgress (-50) 400 400 ≤ 1 :=
  ⟨(claim_C7_progress_clamped (-50) 400 400).2.2 (by norm_num),
    (claim_C7_progress_clamped (-50) 400 400).1,
    (claim_C7_progress_clamped (-50) 400 400).2.1⟩

/-- C9: the geometry computation is a pure function of its inputs — equal
configurations and dimensions give identical points, segment lengths, total
length and path description. -/
theorem claim_C9_deterministic (cfg cfg2 : ScrollbarConfig) (w w2 h h2 : ℝ)
    (hc : cfg = cfg2) (hw : w = w2) (hh : h = h2) :
    (calculateRailPath cfg w h).points = (calculateRailPath cfg2 w2 h2).points ∧
    (calculateRailPath cfg w h).segmentLengths =
      (calculateRailPath cfg2 w2 h2).segmentLengths ∧
    (calculateRailPath cfg w h).totalLength = (calculateRailPath cfg2 w2 h2).totalLength ∧
    (calculateRailPath cfg w h).railPath = (calculateRailPath cfg2 w2 h2).railPath := by
  subst hc; subst hw; subst hh
  exact ⟨rfl, rfl, rfl, rfl⟩

/-- Witness for C9: the two calls at the concrete viewport 300 × 600 agree. -/
theorem claim_C9_deterministic_witness :
    (calculateRailPath SCROLLBAR_CONFIG 300 600).points =
      (calculateRailPath SCROLLBAR_CONFIG 300 600).points ∧
    (calculateRailPath SCROLLBAR_CONFIG 300 600).segmentLengths =
      (calculateRailPath SCROLLBAR_CONFIG 300 600).segmentLengths ∧
    (calculateRailPath SCROLLBAR_CONFIG 300 600).totalLength =
      (calculateRailPath SCROLLBAR_CONFIG 300 600).totalLength ∧
    (calculateRailPath SCROLLBAR_CONFIG 300 600).railPath =
      (calculateRailPath SCROLLBAR_CONFIG 300 600).railPath :=
  claim_C9_deterministic SCROLLBAR_CONFIG SCROLLBAR_CONFIG 300 300 600 600 rfl rfl rfl

/-- C10: the rail is mirror-symmetric about the horizontal midline: point i
and point 5 - i share an x-coordinate and their y-coordinates sum to the
viewport height, and the segment lengths pair up accordingly. -/
theorem claim_C10_midline_symmetry (cfg : ScrollbarConfig) (w h : ℝ)
    (hw : 0 < w) (hh : 0 < h) (i : ℕ) (hi : i < 6) :
    (((calculateRailPath cfg w h).points.getD i default).x =
        ((calculateRailPath cfg w h).points.getD (5 - i) default).x ∧
      ((calculateRailPath cfg w h).points.getD i default).y +
        ((calculateRailPath cfg w h).points.getD (5 - i) default).y = h) ∧
    (calculateRailPath cfg w h).segmentLengths.getD 0 0 =
      (calculateRailPath cfg w h).segmentLengths.getD 4 0 ∧
    (calculateRailPath cfg w h).segmentLengths.getD 1 0 =
      (calculateRailPath cfg w h).segmentLengths.getD 3 0 := by
  rw [railPath_points_eq cfg w h hw.ne' hh.ne',
    railPath_segmentLengths_eq cfg w h hw.ne' hh.ne']
  refine ⟨?_, ?_, ?_⟩
  · interval_cases i <;> simp
  · simp only [eucDist, List.getD_cons_zero, List.getD_cons_succ]
    ring_nf
  · simp only [List.getD_cons_zero, List.getD_cons_succ]

/-- Witness for C10 at the concrete viewport 300 × 600 and index 0. -/
theorem claim_C10_midline_symmetry_witness :
    (0 : ℝ) < 300 ∧ (0 : ℕ) < 6 ∧
      ((((calculateRailPath SCROLLBAR_CONFIG 300 600).points.getD 0 default).x =
          ((calculateRailPath SCROLLBAR_CONFIG 300 600).points.getD (5 - 0) default).x ∧
        (((calculateRailPath SCROLLBAR_CONFIG 300 600).points.getD 0 default).y +
          ((calculateRailPath SCROLLBAR_CONFIG 300 600).points.getD (5 - 0) default).y = 600)) ∧
      (calculateRailPath SCROLLBAR_CONFIG 300 600).segmentLengths.getD 0 0 =
        (calculateRailPath SCROLLBAR_CONFIG 300 600).segmentLengths.getD 4 0 ∧
      (calculateRailPath SCROLLBAR_CONFIG 300 600).segmentLengths.getD 1 0 =
        (calculateRailPath SCROLLBAR_CONFIG 300 600).segmentLengths.getD 3 0) :=
  ⟨by norm_num, by norm_num,
    claim_C10_midline_symmetry SCROLLBAR_CONFIG 300 600 (by norm_num) (by norm_num)
      0 (by norm_num)⟩

/-- Counterexample to C5 as stated: at width 242 the start point and the
first corner-approach point coincide (242 / 1.1 = 220 = 242 - 10 - 12), so
the first segment length is 0, not positive. -/
theorem claim_C5_counterexample :
    ¬ ∀ l ∈ (calculateRailPath SCROLLBAR_CONFIG 242 600).segmentLengths, 0 < l := by
  intro hall
  have hmem : (0 : ℝ) ∈ (calculateRailPath SCROLLBAR_CONFIG 242 600).segmentLengths := by
    rw [railPath_segmentLengths_eq SCROLLBAR_CONFIG 242 600 (by norm_num) (by norm_num)]
    have h0 : eucDist
        ⟨242 / SCROLLBAR_CONFIG.horizontalPosition,
          SCROLLBAR_CONFIG.edgePadding + SCROLLBAR_CONFIG.cornerRadius⟩
        ⟨242 - SCROLLBAR_CONFIG.edgePadding - SCROLLBAR_CONFIG.cornerRadius,
          SCROLLBAR_CONFIG.edgePadding + SCROLLBAR_CONFIG.cornerRadius⟩ = 0 := by
      rw [eucDist]
      have : ((242 : ℝ) - SCROLLBAR_CONFIG.edgePadding - SCROLLBAR_CONFIG.cornerRadius -
          242 / SCROLLBAR_CONFIG.horizontalPosition) = 0 := by
        norm_num [SCROLLBAR_CONFIG]
      simp [Pt.mk.injEq, this]
    rw [← h0]
    exact List.mem_cons_self _ _
  exact lt_irrefl 0 (hall 0 hmem)

/-- C5 amended: for a measured viewport the geometry has exactly five
segment lengths, each nonnegative (a degenerate viewport width can collapse
a straight segment to length 0), and the total length is exactly their sum. -/
theorem claim_C5_amended_lengths (w h : ℝ) (hw : 0 < w) (hh : 0 < h) :
    (calculateRailPath SCROLLBAR_CONFIG w h).segmentLengths.length = 5 ∧
    (∀ l ∈ (calculateRailPath SCROLLBAR_CONFIG w h).segmentLengths, 0 ≤ l) ∧
    (calculateRailPath SCROLLBAR_CONFIG w h).totalLength =
      (calculateRailPath SCROLLBAR_CONFIG w h).segmentLengths.sum := by
  have hseg := railPath_segmentLengths_eq SCROLLBAR_CONFIG w h hw.ne' hh.ne'
  refine ⟨by rw [hseg]; rfl, ?_, ?_⟩
  · intro l hl
    rw [hseg] at hl
    simp only [List.mem_cons, List.not_mem_nil, or_false] at hl
    rcases hl with rfl | rfl | rfl | rfl | rfl
    · exact Real.sqrt_nonneg _
    · simp only [SCROLLBAR_CONFIG]; positivity
    · exact Real.sqrt_nonneg _
    · simp only [SCROLLBAR_CONFIG]; positivity
    · exact Real.sqrt_nonneg _
  · have htot : (calculateRailPath SCROLLBAR_CONFIG w h).totalLength =
        (calculateRailPath SCROLLBAR_CONFIG w h).segmentLengths.foldl
          (fun a b => a + b) 0 := by
      rw [calculateRailPath, if_neg (by push_neg; exact ⟨hw.ne', hh.ne'⟩)]
    rw [htot, hseg]
    simp [List.foldl, List.sum_cons]
    ring

/-- Witness for the amended C5 at the concrete viewport 300 × 600. -/
theorem claim_C5_amended_lengths_witness :
    (0 : ℝ) < 300 ∧ (0 : ℝ) < 600 ∧
      ((calculateRailPath SCROLLBAR_CONFIG 300 600).segmentLengths.length = 5 ∧
        (∀ l ∈ (calculateRailPath SCROLLBAR_CONFIG 300 600).segmentLengths, 0 ≤ l) ∧
        (calculateRailPath SCROLLBAR_CONFIG 300 600).totalLength =
          (calculateRailPath SCROLLBAR_CONFIG 300 600).segmentLengths.sum) :=
  ⟨by norm_num, by norm_num,
    claim_C5_amended_lengths 300 600 (by norm_num) (by norm_num)⟩

end CurvedScrollBar
